import Mathlib

/-!
Shallow embedding of the garage back-office job-card core: the financial
recalculation of jobcards/models.py, the line-item and payment serializers of
jobcards/serializers.py, and the inventory stock-synchronisation signal
handlers of jobcards/signals.py.

Monetary values (Python decimal.Decimal columns) are embedded as exact
rationals: every arithmetic step the code performs (sums, products with the
tax rate) is exact at the default 28-digit Decimal context for the magnitudes
the column declarations allow, so ℚ is a faithful carrier.
-/

/-- LineItem.TYPE_CHOICES of jobcards/models.py. -/
inductive ItemType
  | PART
  | LABOR
  | FEE
  deriving DecidableEq, Repr

/-- A LineItem row (jobcards/models.py, class LineItem). -/
structure LineItem where
  id : Nat
  item_type : ItemType
  description : String := ""
  sku : Option String := none
  quantity : ℚ := 1
  unit_price : ℚ
  labor_time_hrs : Option ℚ := none
  line_total : ℚ := 0
  deriving DecidableEq, Repr

/-- A Payment row (jobcards/models.py, class Payment). -/
structure Payment where
  amount : ℚ
  payment_method : String := "CASH"
  transaction_ref : Option String := none
  deriving DecidableEq, Repr

/-- A JobCard row together with its owned line items and payments
(jobcards/models.py, class JobCard; line_items and payments are the related
rows reached through the reverse foreign keys). -/
structure JobCard where
  job_number : String := ""
  status : String := "DRAFT"
  parts_subtotal : ℚ := 0
  labor_subtotal : ℚ := 0
  tax_amount : ℚ := 0
  total_due : ℚ := 0
  total_paid : ℚ := 0
  line_items : List LineItem := []
  payments : List Payment := []
  deriving DecidableEq, Repr

/-- An InventoryPart row (inventory/models.py, class InventoryPart). The code
assigns Decimal arithmetic results to stock_qty, so it is carried as ℚ. -/
structure InventoryPart where
  name : String := ""
  sku : String
  stock_qty : ℚ
  critical_qty : ℚ := 5
  deriving DecidableEq, Repr

/-- The persistent state the claims range over: one job card (with its line
item and payment rows) and the inventory table. -/
structure DB where
  jobcard : JobCard
  parts : List InventoryPart
  deriving DecidableEq, Repr

/-- TAX_RATE, the Decimal constant 0.15 of jobcards/models.py. -/
def TAX_RATE : ℚ := 15 / 100

/-- The filtered Sum over line_total by item_type in JobCard.recalculate_totals,
with the None result coalesced to the Decimal 0.00 (an empty sum is 0). -/
def sumLineTotals (ty : ItemType) (items : List LineItem) : ℚ :=
  ((items.filter fun it => it.item_type == ty).map fun it => it.line_total).sum

/-- The aggregate Sum over payment amounts, with None coalesced to 0. -/
def paymentsTotal (ps : List Payment) : ℚ :=
  (ps.map Payment.amount).sum

/-- JobCard.recalculate_totals of jobcards/models.py: aggregates line items by
type (LABOR and FEE are combined into labor_subtotal), sets
tax_amount = subtotal * TAX_RATE, total_due = subtotal + tax_amount, and
total_paid = sum of payment amounts. No rounding is applied anywhere. -/
def recalculate_totals (jc : JobCard) : JobCard :=
  let parts := sumLineTotals ItemType.PART jc.line_items
  let labor := sumLineTotals ItemType.LABOR jc.line_items
               + sumLineTotals ItemType.FEE jc.line_items
  let subtotal := parts + labor
  { jc with
    parts_subtotal := parts
    labor_subtotal := labor
    tax_amount := subtotal * TAX_RATE
    total_due := subtotal + subtotal * TAX_RATE
    total_paid := paymentsTotal jc.payments }

/-- The balance_due property of JobCard: total_due - total_paid, always
derived, never stored. -/
def JobCard.balance_due (jc : JobCard) : ℚ :=
  jc.total_due - jc.total_paid

/-- LineItem.save of jobcards/models.py: line_total is overwritten with
quantity * unit_price on every save; the caller-supplied value is ignored. -/
def LineItem.save (it : LineItem) : LineItem :=
  { it with line_total := it.quantity * it.unit_price }

/-- Python truthiness of instance.sku in the signal handlers: None and the
empty string are falsy. -/
def skuTruthy : Option String → Bool
  | none => false
  | some s => !(s == "")

/-- The sku key used for the InventoryPart lookup when skuTruthy holds. -/
def skuKey : Option String → String
  | none => ""
  | some s => s

/-- InventoryPart.objects.get(sku=...): sku is a unique column, so the first
matching row is the row. -/
def findPart (parts : List InventoryPart) (sku : String) : Option InventoryPart :=
  parts.find? fun p => p.sku == sku

/-- part.save() after assigning part.stock_qty: writes the new stock value
back onto the (unique, hence first) row with the given sku. -/
def setPartStock (parts : List InventoryPart) (sku : String) (v : ℚ) : List InventoryPart :=
  match parts with
  | [] => []
  | p :: rest =>
      if p.sku == sku then { p with stock_qty := v } :: rest
      else p :: setPartStock rest sku v

/-- LineItem.objects.get(pk=...): primary keys are unique, first match. -/
def findLineItem (items : List LineItem) (id : Nat) : Option LineItem :=
  items.find? fun it => it.id == id

/-- The UPDATE a LineItem save issues for an existing primary key. -/
def replaceLineItem (items : List LineItem) (id : Nat) (new : LineItem) : List LineItem :=
  match items with
  | [] => []
  | it :: rest =>
      if it.id == id then new :: rest
      else it :: replaceLineItem rest id new

/-- The DELETE issued for a line-item row. -/
def removeLineItem (items : List LineItem) (id : Nat) : List LineItem :=
  match items with
  | [] => []
  | it :: rest =>
      if it.id == id then rest
      else it :: removeLineItem rest id

/-- update_inventory_on_lineitem_save of jobcards/signals.py. It is a
post_save receiver: when it runs, the line-item row has already been written,
so in the update branch the LineItem.objects.get(pk=instance.pk) fetch reads
the row as just saved. Both branches clamp a negative result to 0 before
part.save(); a missing sku (InventoryPart.DoesNotExist) only logs. -/
def update_inventory_on_lineitem_save (db : DB) (inst : LineItem) (created : Bool) : DB :=
  if inst.item_type == ItemType.PART && skuTruthy inst.sku then
    match findPart db.parts (skuKey inst.sku) with
    | some part =>
        let stock1 :=
          if created then
            part.stock_qty - inst.quantity
          else
            let old_quantity :=
              match findLineItem db.jobcard.line_items inst.id with
              | some row => row.quantity
              | none => inst.quantity
            part.stock_qty + (old_quantity - inst.quantity)
        let stock2 := if stock1 < 0 then 0 else stock1
        { db with parts := setPartStock db.parts (skuKey inst.sku) stock2 }
    | none => db
  else db

/-- restore_inventory_on_lineitem_delete of jobcards/signals.py: adds the
quantity of the deleted item back. Unlike the save handler, it applies no clamp. -/
def restore_inventory_on_lineitem_delete (db : DB) (inst : LineItem) : DB :=
  if inst.item_type == ItemType.PART && skuTruthy inst.sku then
    match findPart db.parts (skuKey inst.sku) with
    | some part =>
        { db with parts := setPartStock db.parts (skuKey inst.sku)
                             (part.stock_qty + inst.quantity) }
    | none => db
  else db

/-- Creating a line item: LineItem.save computes line_total and INSERTs the
row, then the post_save handler runs with created=True. -/
def createLineItem (db : DB) (item : LineItem) : DB :=
  let saved := LineItem.save item
  let db1 := { db with jobcard :=
    { db.jobcard with line_items := db.jobcard.line_items ++ [saved] } }
  update_inventory_on_lineitem_save db1 saved true

/-- Updating the quantity and unit price of an existing line item: LineItem.save
recomputes line_total and UPDATEs the row, then the post_save handler runs
with created=False (and therefore fetches the already-updated row). -/
def updateLineItem (db : DB) (id : Nat) (q p : ℚ) : DB :=
  match findLineItem db.jobcard.line_items id with
  | none => db
  | some old =>
      let saved := LineItem.save { old with quantity := q, unit_price := p }
      let db1 := { db with jobcard :=
        { db.jobcard with line_items := replaceLineItem db.jobcard.line_items id saved } }
      update_inventory_on_lineitem_save db1 saved false

/-- Deleting a line item: the row is removed, then the post_delete handler
runs with the deleted instance. -/
def deleteLineItem (db : DB) (id : Nat) : DB :=
  match findLineItem db.jobcard.line_items id with
  | none => db
  | some inst =>
      let db1 := { db with jobcard :=
        { db.jobcard with line_items := removeLineItem db.jobcard.line_items id } }
      restore_inventory_on_lineitem_delete db1 inst

/-- The stock level of the part with the given sku, if present. -/
def stockOf (db : DB) (sku : String) : Option ℚ :=
  (findPart db.parts sku).map InventoryPart.stock_qty

/-- One line-item lifecycle event, as dispatched to the signal handlers. -/
inductive LineItemOp
  | create (item : LineItem)
  | update (id : Nat) (q p : ℚ)
  | delete (id : Nat)
  deriving Repr

/-- Apply one lifecycle event. -/
def applyOp (db : DB) : LineItemOp → DB
  | LineItemOp.create item => createLineItem db item
  | LineItemOp.update id q p => updateLineItem db id q p
  | LineItemOp.delete id => deleteLineItem db id

/-- Apply a sequence of lifecycle events in order. -/
def applyOps (db : DB) (ops : List LineItemOp) : DB :=
  ops.foldl applyOp db

/-- LineItemSerializer.validate of jobcards/serializers.py: for item types
PART, LABOR and FEE (all of them), unit_price must be present and > 0;
nothing else — in particular not quantity — is inspected. -/
def lineItemValidate (ty : ItemType) (unit_price : Option ℚ) : Except String Unit :=
  if ty == ItemType.PART || ty == ItemType.LABOR || ty == ItemType.FEE then
    match unit_price with
    | none => Except.error "Price must be greater than zero for all line items."
    | some p =>
        if p ≤ 0 then Except.error "Price must be greater than zero for all line items."
        else Except.ok ()
  else Except.ok ()

/-- addLineItem: the serializer validates, then LineItem.objects.create runs
(which computes line_total in save and fires the post_save handler).
line_total is a read_only field: the stored value never comes from the
caller. -/
def addLineItem (db : DB) (item : LineItem) : Except String DB :=
  match lineItemValidate item.item_type (some item.unit_price) with
  | Except.error e => Except.error e
  | Except.ok _ => Except.ok (createLineItem db item)

/-- PaymentSerializer of jobcards/serializers.py declares no custom
validation; the only checks on amount are the DRF DecimalField column checks
(max_digits=10, decimal_places=2): at most 2 decimal places and at most 8
whole digits. There is no sign check. -/
def paymentSerializerValid (amount : ℚ) : Bool :=
  decide ((amount * 100).den = 1) && decide (|amount| < 100000000)

/-- Zero-pad a numeral string to six characters. -/
def padSix (s : String) : String :=
  String.mk (List.replicate (6 - s.length) (Char.ofNat 48)) ++ s

/-- JobCard.save of jobcards/models.py: if job_number is unset (falsy), it is
generated from the last record id; otherwise the row is written unchanged. -/
def JobCard.save (new_id : Nat) (jc : JobCard) : JobCard :=
  if jc.job_number == "" then
    { jc with job_number := "J" ++ padSix (toString new_id) }
  else jc

/-- Payment.save of jobcards/models.py for a new payment (pk is None): the
payment row is inserted, then the total_paid of the owning job card is recomputed
as the aggregate sum of all its payments and the job card is saved. No other
job-card field is assigned. -/
def Payment.saveNew (new_id : Nat) (jc : JobCard) (pmt : Payment) : JobCard :=
  let jc1 := { jc with payments := jc.payments ++ [pmt] }
  let jc2 := { jc1 with total_paid := paymentsTotal jc1.payments }
  JobCard.save new_id jc2

/-- recordPayment: PaymentViewSet.create runs serializer.is_valid
(raise_exception=True) and then serializer.save(job_card=job_card), which
invokes Payment.save. -/
def recordPayment (new_id : Nat) (jc : JobCard) (amount : ℚ) (method : String)
    (ref : Option String) : Except String JobCard :=
  if paymentSerializerValid amount then
    Except.ok (Payment.saveNew new_id jc
      { amount := amount, payment_method := method, transaction_ref := ref })
  else Except.error "invalid payment data"

/-- Rounding to two decimal places (round-half-up on the scaled value); the
round(x, 2) of the spec. The counterexample below does not depend on the tie
rule: the value the code computes is not expressible at two decimals at all. -/
def round2 (q : ℚ) : ℚ :=
  (round (q * 100) : ℚ) / 100

/-- Nonnegativity of the quantity an operation writes: create and update
carry their new quantity; delete carries none of its own. -/
def opQuantityNonneg : LineItemOp → Prop
  | LineItemOp.create item => 0 ≤ item.quantity
  | LineItemOp.update _ q _ => 0 ≤ q
  | LineItemOp.delete _ => True

/-- A job card holding exactly one PART line item of quantity 1 at unit price
0.10, as LineItem.save stores it (line_total = 0.10). -/
def c1Jc : JobCard :=
  { line_items := [ { id := 1, item_type := ItemType.PART, unit_price := 1/10,
                      quantity := 1, line_total := 1/10 } ] }

/-- Inventory with the part OIL123 at stock 3, no line items yet. -/
def c2Db : DB :=
  { jobcard := {}, parts := [ { sku := "OIL123", stock_qty := 3 } ] }

/-- A PART line item consuming 5 units of OIL123. -/
def c2Item : LineItem :=
  { id := 1, item_type := ItemType.PART, sku := some "OIL123", quantity := 5,
    unit_price := 50 }

/-- Inventory with the part OIL123 at stock 10, no line items yet. -/
def c2WDb : DB :=
  { jobcard := {}, parts := [ { sku := "OIL123", stock_qty := 10 } ] }

/-- A PART line item consuming 2 units of OIL123. -/
def c2WItem : LineItem :=
  { id := 1, item_type := ItemType.PART, sku := some "OIL123", quantity := 2,
    unit_price := 50 }

/-- An existing PART line-item row: 2 units of OIL123 already consumed. -/
def c3Item : LineItem :=
  { id := 1, item_type := ItemType.PART, sku := some "OIL123", quantity := 2,
    unit_price := 50, line_total := 100 }

/-- State before the update: the row above persisted, OIL123 at stock 10. -/
def c3Db : DB :=
  { jobcard := { line_items := [c3Item] },
    parts := [ { sku := "OIL123", stock_qty := 10 } ] }

/-- Inventory with part P1 at stock 0, no line items yet. -/
def c4Db : DB := { jobcard := {}, parts := [ { sku := "P1", stock_qty := 0 } ] }

/-- A PART line item with a negative quantity (validation accepts it). -/
def c4A : LineItem :=
  { id := 1, item_type := ItemType.PART, sku := some "P1", quantity := -5,
    unit_price := 1 }

/-- A PART line item consuming 10 units of P1. -/
def c4B : LineItem :=
  { id := 2, item_type := ItemType.PART, sku := some "P1", quantity := 10,
    unit_price := 1 }

/-- A PART line item consuming 3 units of P1. -/
def c4W : LineItem :=
  { id := 3, item_type := ItemType.PART, sku := some "P1", quantity := 3,
    unit_price := 2 }

/-- A persisted job card (job number assigned) with an amount due. -/
def c5Jc : JobCard := { job_number := "J000001", total_due := 100 }

/-- A database with an empty inventory table. -/
def c6Db : DB := { jobcard := {}, parts := [] }

/-- A PART line item whose sku matches no InventoryPart. -/
def c6Item : LineItem :=
  { id := 1, item_type := ItemType.PART, sku := some "NOPART", quantity := 2,
    unit_price := 50 }

/-- A valid line item: positive unit price. -/
def c7Good : LineItem :=
  { id := 1, item_type := ItemType.LABOR, quantity := 1, unit_price := 40 }

/-- An invalid line item: non-positive unit price. -/
def c7Bad : LineItem :=
  { id := 2, item_type := ItemType.LABOR, quantity := 1, unit_price := 0 }

/-- A line item with a negative quantity and a positive unit price. -/
def c9Item : LineItem :=
  { id := 1, item_type := ItemType.FEE, quantity := -2, unit_price := 5 }

/-- A persisted job card with financial fields set. -/
def c10Jc : JobCard :=
  { job_number := "J000002", status := "OPEN", parts_subtotal := 100,
    labor_subtotal := 40, tax_amount := 21, total_due := 161, total_paid := 0 }

/-- A cash payment of 100. -/
def c10Pmt : Payment := { amount := 100 }

/-! ## Helper lemmas on the list-level table operations -/

theorem findPart_cons (q : InventoryPart) (rest : List InventoryPart) (s : String) :
    findPart (q :: rest) s = if q.sku == s then some q else findPart rest s := by
  simp only [findPart, List.find?]
  cases h : q.sku == s <;> simp

theorem setPartStock_cons (q : InventoryPart) (rest : List InventoryPart) (s : String) (v : ℚ) :
    setPartStock (q :: rest) s v =
      if q.sku == s then { q with stock_qty := v } :: rest
      else q :: setPartStock rest s v := rfl

theorem findLineItem_cons (it : LineItem) (rest : List LineItem) (id : Nat) :
    findLineItem (it :: rest) id = if it.id == id then some it else findLineItem rest id := by
  simp only [findLineItem, List.find?]
  cases h : it.id == id <;> simp

theorem removeLineItem_cons (it : LineItem) (rest : List LineItem) (id : Nat) :
    removeLineItem (it :: rest) id =
      if it.id == id then rest else it :: removeLineItem rest id := rfl

theorem replaceLineItem_cons (it : LineItem) (rest : List LineItem) (id : Nat) (new : LineItem) :
    replaceLineItem (it :: rest) id new =
      if it.id == id then new :: rest else it :: replaceLineItem rest id new := rfl

theorem findPart_setPartStock_self (l : List InventoryPart) (s : String) (p : InventoryPart)
    (v : ℚ) (h : findPart l s = some p) :
    findPart (setPartStock l s v) s = some { p with stock_qty := v } := by
  induction l with
  | nil => simp [findPart] at h
  | cons q rest ih =>
      cases hq : q.sku == s with
      | true =>
          rw [findPart_cons, hq] at h
          simp at h
          subst h
          rw [setPartStock_cons, hq]
          simp [findPart_cons, hq]
      | false =>
          rw [findPart_cons, hq] at h
          simp at h
          simp [setPartStock_cons, findPart_cons, hq, ih h]

theorem setPartStock_setPartStock (l : List InventoryPart) (s : String) (v w : ℚ) :
    setPartStock (setPartStock l s v) s w = setPartStock l s w := by
  induction l with
  | nil => rfl
  | cons q rest ih =>
      cases hq : q.sku == s with
      | true => simp [setPartStock_cons, hq]
      | false => simp [setPartStock_cons, hq, ih]

theorem setPartStock_self (l : List InventoryPart) (s : String) (p : InventoryPart)
    (h : findPart l s = some p) :
    setPartStock l s p.stock_qty = l := by
  induction l with
  | nil => rfl
  | cons q rest ih =>
      cases hq : q.sku == s with
      | true =>
          rw [findPart_cons, hq] at h
          simp at h
          subst h
          simp [setPartStock_cons, hq]
      | false =>
          rw [findPart_cons, hq] at h
          simp at h
          simp [setPartStock_cons, hq, ih h]

theorem findLineItem_append_new (l : List LineItem) (x : LineItem)
    (h : findLineItem l x.id = none) :
    findLineItem (l ++ [x]) x.id = some x := by
  induction l with
  | nil => simp [findLineItem, List.find?]
  | cons it rest ih =>
      cases hq : it.id == x.id with
      | true =>
          rw [findLineItem_cons, hq] at h
          simp at h
      | false =>
          rw [findLineItem_cons, hq] at h
          simp at h
          rw [List.cons_append, findLineItem_cons, hq]
          simp [ih h]

theorem removeLineItem_append_new (l : List LineItem) (x : LineItem)
    (h : findLineItem l x.id = none) :
    removeLineItem (l ++ [x]) x.id = l := by
  induction l with
  | nil => simp [removeLineItem]
  | cons it rest ih =>
      cases hq : it.id == x.id with
      | true =>
          rw [findLineItem_cons, hq] at h
          simp at h
      | false =>
          rw [findLineItem_cons, hq] at h
          simp at h
          rw [List.cons_append, removeLineItem_cons, hq]
          simp [ih h]

theorem findPart_mem (l : List InventoryPart) (s : String) (p : InventoryPart)
    (h : findPart l s = some p) : p ∈ l :=
  List.mem_of_find?_eq_some h

theorem findLineItem_mem (l : List LineItem) (id : Nat) (it : LineItem)
    (h : findLineItem l id = some it) : it ∈ l :=
  List.mem_of_find?_eq_some h

theorem clamp_nonneg (x : ℚ) : 0 ≤ if x < 0 then (0 : ℚ) else x := by
  split
  · exact le_refl 0
  · linarith [not_lt.mp (by assumption)]

theorem stocksNonneg_setPartStock (l : List InventoryPart) (s : String) (v : ℚ)
    (h : ∀ p ∈ l, 0 ≤ p.stock_qty) (hv : 0 ≤ v) :
    ∀ p ∈ setPartStock l s v, 0 ≤ p.stock_qty := by
  induction l with
  | nil => simp [setPartStock]
  | cons q rest ih =>
      intro p hp
      rw [setPartStock_cons] at hp
      by_cases hq : (q.sku == s) = true
      · rw [if_pos hq] at hp
        rcases List.mem_cons.mp hp with h1 | h1
        · subst h1
          exact hv
        · exact h p (List.mem_cons_of_mem _ h1)
      · rw [if_neg hq] at hp
        rcases List.mem_cons.mp hp with h1 | h1
        · subst h1
          exact h p (List.mem_cons_self _ _)
        · exact ih (fun r hr => h r (List.mem_cons_of_mem _ hr)) p h1

/-! ## Frame lemmas for the signal handlers -/

theorem update_save_jobcard_eq (db : DB) (inst : LineItem) (created : Bool) :
    (update_inventory_on_lineitem_save db inst created).jobcard = db.jobcard := by
  simp only [update_inventory_on_lineitem_save]
  split
  · split <;> rfl
  · rfl

theorem restore_jobcard_eq (db : DB) (inst : LineItem) :
    (restore_inventory_on_lineitem_delete db inst).jobcard = db.jobcard := by
  simp only [restore_inventory_on_lineitem_delete]
  split
  · split <;> rfl
  · rfl

theorem update_save_stocks (db : DB) (inst : LineItem) (created : Bool)
    (h : ∀ p ∈ db.parts, 0 ≤ p.stock_qty) :
    ∀ p ∈ (update_inventory_on_lineitem_save db inst created).parts, 0 ≤ p.stock_qty := by
  simp only [update_inventory_on_lineitem_save]
  split
  · split
    · exact stocksNonneg_setPartStock _ _ _ h (clamp_nonneg _)
    · exact h
  · exact h

theorem restore_stocks (db : DB) (inst : LineItem)
    (h : ∀ p ∈ db.parts, 0 ≤ p.stock_qty) (hq : 0 ≤ inst.quantity) :
    ∀ p ∈ (restore_inventory_on_lineitem_delete db inst).parts, 0 ≤ p.stock_qty := by
  simp only [restore_inventory_on_lineitem_delete]
  split
  · split
    · rename_i part hfind
      have hmem : part ∈ db.parts := findPart_mem _ _ _ hfind
      exact stocksNonneg_setPartStock _ _ _ h (by linarith [h part hmem])
    · exact h
  · exact h

theorem update_save_parts_of_miss (db : DB) (inst : LineItem) (created : Bool)
    (hmiss : findPart db.parts (skuKey inst.sku) = none) :
    (update_inventory_on_lineitem_save db inst created).parts = db.parts := by
  simp only [update_inventory_on_lineitem_save]
  split
  · rw [hmiss]
  · rfl

theorem itemsNonneg_append (l : List LineItem) (x : LineItem)
    (h : ∀ it ∈ l, 0 ≤ it.quantity) (hx : 0 ≤ x.quantity) :
    ∀ it ∈ l ++ [x], 0 ≤ it.quantity := by
  intro it hit
  rcases List.mem_append.mp hit with h1 | h1
  · exact h it h1
  · simp at h1
    subst h1
    exact hx

theorem itemsNonneg_replace (l : List LineItem) (id : Nat) (new : LineItem)
    (h : ∀ it ∈ l, 0 ≤ it.quantity) (hx : 0 ≤ new.quantity) :
    ∀ it ∈ replaceLineItem l id new, 0 ≤ it.quantity := by
  induction l with
  | nil => simp [replaceLineItem]
  | cons q rest ih =>
      intro it hit
      rw [replaceLineItem_cons] at hit
      by_cases hq : (q.id == id) = true
      · rw [if_pos hq] at hit
        rcases List.mem_cons.mp hit with h1 | h1
        · subst h1
          exact hx
        · exact h it (List.mem_cons_of_mem _ h1)
      · rw [if_neg hq] at hit
        rcases List.mem_cons.mp hit with h1 | h1
        · subst h1
          exact h it (List.mem_cons_self _ _)
        · exact ih (fun r hr => h r (List.mem_cons_of_mem _ hr)) it h1

theorem itemsNonneg_remove (l : List LineItem) (id : Nat)
    (h : ∀ it ∈ l, 0 ≤ it.quantity) :
    ∀ it ∈ removeLineItem l id, 0 ≤ it.quantity := by
  induction l with
  | nil => simp [removeLineItem]
  | cons q rest ih =>
      intro it hit
      rw [removeLineItem_cons] at hit
      by_cases hq : (q.id == id) = true
      · rw [if_pos hq] at hit
        exact h it (List.mem_cons_of_mem _ hit)
      · rw [if_neg hq] at hit
        rcases List.mem_cons.mp hit with h1 | h1
        · subst h1
          exact h it (List.mem_cons_self _ _)
        · exact ih (fun r hr => h r (List.mem_cons_of_mem _ hr)) it h1

theorem applyOp_preserves_nonneg (db : DB) (op : LineItemOp)
    (hitems : ∀ it ∈ db.jobcard.line_items, 0 ≤ it.quantity)
    (hstocks : ∀ p ∈ db.parts, 0 ≤ p.stock_qty)
    (hop : opQuantityNonneg op) :
    (∀ it ∈ (applyOp db op).jobcard.line_items, 0 ≤ it.quantity) ∧
    (∀ p ∈ (applyOp db op).parts, 0 ≤ p.stock_qty) := by
  cases op with
  | create item =>
      simp only [applyOp, createLineItem]
      constructor
      · rw [update_save_jobcard_eq]
        exact itemsNonneg_append _ _ hitems hop
      · exact update_save_stocks _ _ _ hstocks
  | update id q p =>
      cases hfind : findLineItem db.jobcard.line_items id with
      | none =>
          simp only [applyOp, updateLineItem, hfind]
          exact ⟨hitems, hstocks⟩
      | some old =>
          simp only [applyOp, updateLineItem, hfind]
          constructor
          · rw [update_save_jobcard_eq]
            exact itemsNonneg_replace _ _ _ hitems hop
          · exact update_save_stocks _ _ _ hstocks
  | delete id =>
      cases hfind : findLineItem db.jobcard.line_items id with
      | none =>
          simp only [applyOp, deleteLineItem, hfind]
          exact ⟨hitems, hstocks⟩
      | some inst =>
          have hq : 0 ≤ inst.quantity := hitems inst (findLineItem_mem _ _ _ hfind)
          simp only [applyOp, deleteLineItem, hfind]
          constructor
          · rw [restore_jobcard_eq]
            exact itemsNonneg_remove _ _ hitems
          · exact restore_stocks _ _ hstocks hq

theorem JobCard.save_total_paid (n : Nat) (jc : JobCard) :
    (JobCard.save n jc).total_paid = jc.total_paid := by
  simp only [JobCard.save]
  split <;> rfl

theorem JobCard.save_payments (n : Nat) (jc : JobCard) :
    (JobCard.save n jc).payments = jc.payments := by
  simp only [JobCard.save]
  split <;> rfl

theorem sumLineTotals_append (ty : ItemType) (l : List LineItem) (x : LineItem) :
    sumLineTotals ty (l ++ [x]) =
      sumLineTotals ty l + (if x.item_type == ty then x.line_total else 0) := by
  simp only [sumLineTotals, List.filter_append]
  cases h : x.item_type == ty <;> simp [h]

/-! ## Claim C1 -/

/-- Claim C1, counterexample: on the job card with a single PART line of
total 0.10, recalculate_totals sets total_due to 0.115, which differs from
round((parts_subtotal + labor_subtotal) * (1 + TAX_RATE), 2) — indeed 0.115
is not expressible at two decimal places at all, so no rounding rule makes
the claimed equation hold. -/
theorem c1_total_due_not_rounded :
    (recalculate_totals c1Jc).total_due ≠
      round2 (((recalculate_totals c1Jc).parts_subtotal +
        (recalculate_totals c1Jc).labor_subtotal) * (1 + TAX_RATE)) ∧
    ¬ ∃ n : ℤ, (recalculate_totals c1Jc).total_due = (n : ℚ) / 100 := by
  constructor
  · simp +decide [recalculate_totals, c1Jc, sumLineTotals, paymentsTotal, TAX_RATE,
      round2, round_eq]
    norm_num
  · rintro ⟨n, h⟩
    simp +decide [recalculate_totals, c1Jc, sumLineTotals, paymentsTotal, TAX_RATE] at h
    norm_num at h
    have h2 : (2 * n : ℚ) = 23 := by field_simp at h; linarith
    have h3 : (2 * n : ℤ) = 23 := by exact_mod_cast h2
    omega

/-- Claim C1, amended: after recalculate_totals, tax_amount equals
(parts_subtotal + labor_subtotal) * TAX_RATE with TAX_RATE = 0.15, and
total_due equals (parts_subtotal + labor_subtotal) * (1 + TAX_RATE) exactly,
with no rounding to two decimals applied. -/
theorem recalculate_totals_tax_and_total (jc : JobCard) :
    (recalculate_totals jc).tax_amount =
      ((recalculate_totals jc).parts_subtotal +
        (recalculate_totals jc).labor_subtotal) * TAX_RATE ∧
    (recalculate_totals jc).total_due =
      ((recalculate_totals jc).parts_subtotal +
        (recalculate_totals jc).labor_subtotal) * (1 + TAX_RATE) := by
  constructor
  · rfl
  · simp only [recalculate_totals]
    ring

/-! ## Claim C2 -/

/-- Claim C2, counterexample: with OIL123 at stock 3, creating a PART line
item of quantity 5 clamps the stock to 0; deleting the same line item then
restores it to 5, not to the pre-creation value 3. -/
theorem c2_clamped_create_delete_not_restored :
    stockOf (deleteLineItem (createLineItem c2Db c2Item) 1) "OIL123" = some 5 ∧
    (5 : ℚ) ≠ 3 := by
  constructor
  · simp +decide [c2Db, c2Item, createLineItem, deleteLineItem,
      update_inventory_on_lineitem_save, restore_inventory_on_lineitem_delete,
      LineItem.save, stockOf, findPart, setPartStock, findLineItem, removeLineItem,
      skuTruthy, skuKey, List.find?]
  · norm_num

/-- Claim C2, amended: creating then deleting an identical PART line item
restores the inventory exactly, provided the pre-creation stock of the part is at
least the consumed quantity (so the clamp to 0 does not engage); the whole
parts table, and the line-item table, return to their pre-creation state. -/
theorem create_then_delete_restores_stock (db : DB) (item : LineItem) (part : InventoryPart)
    (hty : item.item_type = ItemType.PART)
    (hsku : skuTruthy item.sku = true)
    (hfind : findPart db.parts (skuKey item.sku) = some part)
    (hstock : item.quantity ≤ part.stock_qty)
    (hid : findLineItem db.jobcard.line_items item.id = none) :
    (deleteLineItem (createLineItem db item) item.id).parts = db.parts ∧
    (deleteLineItem (createLineItem db item) item.id).jobcard.line_items
      = db.jobcard.line_items := by
  have hclamp : ¬ (part.stock_qty < item.quantity) := not_lt.mpr hstock
  have hsum : part.stock_qty - item.quantity + item.quantity = part.stock_qty := by ring
  have h1 : createLineItem db item =
      { jobcard := { db.jobcard with
          line_items := db.jobcard.line_items ++ [LineItem.save item] },
        parts := setPartStock db.parts (skuKey item.sku)
                   (part.stock_qty - item.quantity) } := by
    unfold createLineItem update_inventory_on_lineitem_save
    simp only [LineItem.save, hty, hsku, hfind, hclamp]
    simp [hclamp]
  have hfind2 : findPart (setPartStock db.parts (skuKey item.sku)
      (part.stock_qty - item.quantity)) (skuKey item.sku) =
      some { part with stock_qty := part.stock_qty - item.quantity } :=
    findPart_setPartStock_self _ _ _ _ hfind
  have hfl : findLineItem (db.jobcard.line_items ++ [LineItem.save item]) item.id
      = some (LineItem.save item) := findLineItem_append_new _ _ hid
  have hrem : removeLineItem (db.jobcard.line_items ++ [LineItem.save item]) item.id
      = db.jobcard.line_items := removeLineItem_append_new _ _ hid
  have h2 : deleteLineItem (createLineItem db item) item.id =
      { jobcard := db.jobcard,
        parts := setPartStock db.parts (skuKey item.sku) part.stock_qty } := by
    rw [h1]
    unfold deleteLineItem
    simp only [hfl, hrem]
    unfold restore_inventory_on_lineitem_delete
    simp only [LineItem.save, hty, hsku, hfind2, setPartStock_setPartStock]
    simp [hsum, setPartStock_setPartStock]
  rw [h2, setPartStock_self _ _ _ hfind]
  exact ⟨rfl, rfl⟩

/-- Claim C2, witness: with OIL123 at stock 10 and a line item consuming 2,
create followed by delete leaves the parts table exactly as before. -/
theorem create_then_delete_restores_stock_witness :
    (deleteLineItem (createLineItem c2WDb c2WItem) c2WItem.id).parts = c2WDb.parts :=
  (create_then_delete_restores_stock c2WDb c2WItem { sku := "OIL123", stock_qty := 10 }
    rfl (by decide)
    (by simp +decide [c2WDb, c2WItem, findPart, List.find?, skuKey])
    (by norm_num [c2WItem])
    rfl).1

/-! ## Claim C3 -/

/-- Claim C3: updating the PART line item for OIL123 from quantity 2 to
quantity 5 (stock 10) leaves the stock at 10, not at 10 + (2 - 5) = 7. The
handler is a post_save receiver, so its LineItem.objects.get(pk) fetch —
which its own comment says retrieves the pre-update value — returns the
already-updated quantity, and diff is always 0. -/
theorem c3_update_leaves_stock_unchanged :
    stockOf (updateLineItem c3Db 1 5 50) "OIL123" = some 10 ∧
    (10 : ℚ) + (c3Item.quantity - 5) = 7 ∧
    (10 : ℚ) ≠ 7 := by
  refine ⟨?_, by norm_num [c3Item], by norm_num⟩
  simp +decide [c3Db, c3Item, updateLineItem, update_inventory_on_lineitem_save,
    LineItem.save, stockOf, findPart, setPartStock, findLineItem, replaceLineItem,
    skuTruthy, skuKey, List.find?]

/-! ## Claim C4 -/

/-- Claim C4, counterexample: starting from P1 at stock 0, create a PART
line item of quantity -5 (stock rises to 5), create one of quantity 10
(stock clamps to 0), then delete the first: the delete handler adds its
quantity back without any clamp and persists stock -5 < 0. -/
theorem c4_delete_persists_negative_stock :
    stockOf (applyOps c4Db
        [LineItemOp.create c4A, LineItemOp.create c4B, LineItemOp.delete 1]) "P1"
      = some (-5) ∧ (-5 : ℚ) < 0 := by
  constructor
  · simp +decide [c4Db, c4A, c4B, applyOps, applyOp, createLineItem, deleteLineItem,
      update_inventory_on_lineitem_save, restore_inventory_on_lineitem_delete,
      LineItem.save, stockOf, findPart, setPartStock, findLineItem, removeLineItem,
      skuTruthy, skuKey, List.find?, List.foldl]
  · norm_num

/-- Claim C4, amended: if every stored line item and every operation carries
a nonnegative quantity (and stocks start nonnegative), then after any
sequence of create, update and delete operations the stock_qty of every part is
still nonnegative: create and update clamp to 0, and delete only adds a
nonnegative quantity. Without the nonnegative-quantity restriction the
unclamped delete handler can persist a negative stock. -/
theorem stock_nonneg_of_nonneg_quantities (db : DB) (ops : List LineItemOp)
    (hitems : ∀ it ∈ db.jobcard.line_items, 0 ≤ it.quantity)
    (hstocks : ∀ p ∈ db.parts, 0 ≤ p.stock_qty)
    (hops : ∀ op ∈ ops, opQuantityNonneg op) :
    ∀ p ∈ (applyOps db ops).parts, 0 ≤ p.stock_qty := by
  induction ops generalizing db with
  | nil => simpa [applyOps] using hstocks
  | cons op rest ih =>
      have hstep := applyOp_preserves_nonneg db op hitems hstocks
        (hops op (List.mem_cons_self _ _))
      have hfold : applyOps db (op :: rest) = applyOps (applyOp db op) rest := rfl
      rw [hfold]
      exact ih (applyOp db op) hstep.1 hstep.2 (fun o ho => hops o (List.mem_cons_of_mem _ ho))

/-- Claim C4, witness: creating a quantity-3 PART line item against P1 at
stock 0 clamps the stock, and the persisted P1 row has nonnegative stock. -/
theorem stock_nonneg_of_nonneg_quantities_witness :
    0 ≤ ({ name := "", sku := "P1", stock_qty := 0, critical_qty := 5 }
          : InventoryPart).stock_qty :=
  stock_nonneg_of_nonneg_quantities c4Db [LineItemOp.create c4W]
    (by simp [c4Db])
    (by simp [c4Db])
    (by intro op hop
        simp at hop
        subst hop
        norm_num [opQuantityNonneg, c4W])
    _
    (by simp +decide [c4Db, c4W, applyOps, applyOp, createLineItem,
          update_inventory_on_lineitem_save, LineItem.save, setPartStock, findPart,
          skuTruthy, skuKey, List.find?, List.foldl])

/-! ## Claim C5 -/

/-- Claim C5, counterexample: recordPayment accepts the non-positive amount
-5 — PaymentSerializer declares no amount validation, so the only checks are
the DecimalField digit bounds and the payment is recorded. -/
theorem c5_recordPayment_accepts_nonpositive :
    ((-5 : ℚ) ≤ 0) ∧
    (recordPayment 2 c5Jc (-5) "CASH" none).isOk = true := by
  constructor
  · norm_num
  · have h1 : paymentSerializerValid (-5) = true := by
      have h2 : ((-5 : ℚ) * 100) = ((-500 : ℤ) : ℚ) := by norm_num
      simp [paymentSerializerValid, h2, Rat.den_intCast]
      norm_num
    simp [recordPayment, c5Jc, h1, Except.isOk, Except.toBool]

/-- Claim C5, amended: recordPayment accepts any amount passing the
DecimalField column checks, with no sign restriction; on success it appends
the payment and synchronously persists total_paid as the exact sum of all
the payments of the job card, and balance_due equals total_due - total_paid. -/
theorem recordPayment_totals (new_id : Nat) (jc : JobCard) (amount : ℚ) (method : String)
    (ref : Option String) (hvalid : paymentSerializerValid amount = true) :
    ∃ jc2, recordPayment new_id jc amount method ref = Except.ok jc2 ∧
      jc2.total_paid = paymentsTotal jc2.payments ∧
      jc2.payments = jc.payments ++
        [{ amount := amount, payment_method := method, transaction_ref := ref }] ∧
      JobCard.balance_due jc2 = jc2.total_due - jc2.total_paid := by
  refine ⟨Payment.saveNew new_id jc
    { amount := amount, payment_method := method, transaction_ref := ref }, ?_, ?_, ?_, rfl⟩
  · simp [recordPayment, hvalid]
  · simp only [Payment.saveNew, JobCard.save_total_paid, JobCard.save_payments]
  · simp only [Payment.saveNew, JobCard.save_payments]

/-- Claim C5, witness: a payment of 40 on the persisted job card is
recorded, total_paid becomes the sum of payments, and balance_due equals
total_due - total_paid. -/
theorem recordPayment_totals_witness :
    ∃ jc2, recordPayment 7 c5Jc 40 "CASH" none = Except.ok jc2 ∧
      jc2.total_paid = paymentsTotal jc2.payments ∧
      jc2.payments = c5Jc.payments ++
        [{ amount := 40, payment_method := "CASH", transaction_ref := none }] ∧
      JobCard.balance_due jc2 = jc2.total_due - jc2.total_paid :=
  recordPayment_totals 7 c5Jc 40 "CASH" none (by
    have h2 : ((40 : ℚ) * 100) = ((4000 : ℤ) : ℚ) := by norm_num
    simp [paymentSerializerValid, h2, Rat.den_intCast]
    norm_num)

/-! ## Claim C6 -/

/-- Claim C6: creating a PART line item whose sku matches no InventoryPart
succeeds (the DoesNotExist branch only logs), mutates no stock — the parts
table is untouched — stores the row, and the recalculated parts_subtotal
includes the total quantity * unit_price of the line. -/
theorem c6_sku_miss_soft_failure (db : DB) (item : LineItem)
    (hty : item.item_type = ItemType.PART)
    (hprice : 0 < item.unit_price)
    (hmiss : findPart db.parts (skuKey item.sku) = none) :
    addLineItem db item = Except.ok (createLineItem db item) ∧
    (createLineItem db item).parts = db.parts ∧
    (createLineItem db item).jobcard.line_items
      = db.jobcard.line_items ++ [LineItem.save item] ∧
    sumLineTotals ItemType.PART (createLineItem db item).jobcard.line_items
      = sumLineTotals ItemType.PART db.jobcard.line_items
        + item.quantity * item.unit_price := by
  have hnle : ¬ (item.unit_price ≤ 0) := not_le.mpr hprice
  refine ⟨?_, ?_, ?_, ?_⟩
  · simp [addLineItem, lineItemValidate, hty, hnle]
  · simp only [createLineItem]
    exact update_save_parts_of_miss _ _ _ hmiss
  · simp only [createLineItem]
    rw [update_save_jobcard_eq]
  · simp only [createLineItem]
    rw [update_save_jobcard_eq]
    rw [sumLineTotals_append]
    have hb : ((LineItem.save item).item_type == ItemType.PART) = true := by
      simp [LineItem.save, hty]
    rw [hb]
    simp [LineItem.save]

/-- Claim C6, witness: against an empty inventory, the PART line item with
sku NOPART is stored, the parts table stays empty, and parts_subtotal picks
up its total of 100. -/
theorem c6_sku_miss_soft_failure_witness :
    addLineItem c6Db c6Item = Except.ok (createLineItem c6Db c6Item) ∧
    (createLineItem c6Db c6Item).parts = c6Db.parts ∧
    (createLineItem c6Db c6Item).jobcard.line_items
      = c6Db.jobcard.line_items ++ [LineItem.save c6Item] ∧
    sumLineTotals ItemType.PART (createLineItem c6Db c6Item).jobcard.line_items
      = sumLineTotals ItemType.PART c6Db.jobcard.line_items
        + c6Item.quantity * c6Item.unit_price :=
  c6_sku_miss_soft_failure c6Db c6Item rfl (by norm_num [c6Item]) rfl

/-! ## Claim C7 -/

/-- Claim C7: addLineItem fails with the ValidationError of the serializer
when unit_price ≤ 0; when unit_price > 0 it succeeds and the stored line_total
is exactly quantity * unit_price, computed inside save — the caller-supplied
line_total is ignored. -/
theorem c7_addLineItem_price_validation (db : DB) (item : LineItem) :
    (item.unit_price ≤ 0 →
      addLineItem db item =
        Except.error "Price must be greater than zero for all line items.") ∧
    (0 < item.unit_price →
      addLineItem db item = Except.ok (createLineItem db item) ∧
      (createLineItem db item).jobcard.line_items
        = db.jobcard.line_items ++
          [{ item with line_total := item.quantity * item.unit_price }]) := by
  have htycond : (item.item_type == ItemType.PART || item.item_type == ItemType.LABOR
      || item.item_type == ItemType.FEE) = true := by
    cases item.item_type <;> rfl
  constructor
  · intro hp
    simp [addLineItem, lineItemValidate, htycond, hp]
  · intro hp
    have hnle : ¬ (item.unit_price ≤ 0) := not_le.mpr hp
    constructor
    · simp [addLineItem, lineItemValidate, htycond, hnle]
    · simp only [createLineItem]
      rw [update_save_jobcard_eq]
      simp [LineItem.save]

/-- Claim C7, witness: the LABOR item at unit price 40 is accepted, while
the one at unit price 0 is rejected with the ValidationError message. -/
theorem c7_addLineItem_price_validation_witness :
    addLineItem c6Db c7Good = Except.ok (createLineItem c6Db c7Good) ∧
    addLineItem c6Db c7Bad =
      Except.error "Price must be greater than zero for all line items." :=
  ⟨((c7_addLineItem_price_validation c6Db c7Good).2 (by norm_num [c7Good])).1,
    (c7_addLineItem_price_validation c6Db c7Bad).1 (by norm_num [c7Bad])⟩

/-! ## Claim C8 -/

/-- Claim C8: recalculate_totals only rewrites the derived financial fields
from the unchanged line-item and payment collections, so running it twice in
a row yields exactly the state a single run yields — parts_subtotal,
labor_subtotal, tax_amount, total_due and total_paid included. -/
theorem recalculate_totals_idempotent (jc : JobCard) :
    recalculate_totals (recalculate_totals jc) = recalculate_totals jc := rfl

/-! ## Claim C9 -/

/-- Claim C9: the validate method of the serializer inspects only item_type and
unit_price; for any unit_price > 0 every quantity — zero or negative
included — is accepted, and the stored line_total = quantity * unit_price is
negative for negative quantities and zero for quantity zero. -/
theorem c9_quantity_unvalidated (db : DB) (item : LineItem) (hp : 0 < item.unit_price) :
    lineItemValidate item.item_type (some item.unit_price) = Except.ok () ∧
    addLineItem db item = Except.ok (createLineItem db item) ∧
    (LineItem.save item).line_total = item.quantity * item.unit_price ∧
    (item.quantity < 0 → (LineItem.save item).line_total < 0) ∧
    (item.quantity = 0 → (LineItem.save item).line_total = 0) := by
  have htycond : (item.item_type == ItemType.PART || item.item_type == ItemType.LABOR
      || item.item_type == ItemType.FEE) = true := by
    cases item.item_type <;> rfl
  have hnle : ¬ (item.unit_price ≤ 0) := not_le.mpr hp
  refine ⟨?_, ?_, rfl, ?_, ?_⟩
  · simp [lineItemValidate, htycond, hnle]
  · simp [addLineItem, lineItemValidate, htycond, hnle]
  · intro hq
    exact mul_neg_of_neg_of_pos hq hp
  · intro hq
    simp [LineItem.save, hq]

/-- Claim C9, witness: the FEE item with quantity -2 at unit price 5 passes
validation and is stored with the negative line_total -10. -/
theorem c9_quantity_unvalidated_witness :
    lineItemValidate c9Item.item_type (some c9Item.unit_price) = Except.ok () ∧
    (LineItem.save c9Item).line_total < 0 :=
  ⟨(c9_quantity_unvalidated c6Db c9Item (by norm_num [c9Item])).1,
    (c9_quantity_unvalidated c6Db c9Item (by norm_num [c9Item])).2.2.2.1
      (by norm_num [c9Item])⟩

/-! ## Claim C10 -/

/-- Claim C10: recording a new payment on a persisted job card (one whose
job_number is already set) rewrites only total_paid — parts_subtotal,
labor_subtotal, tax_amount, total_due, status, job_number and the line items
are untouched, and total_paid becomes the sum over the extended payment
list. -/
theorem c10_payment_save_frame (new_id : Nat) (jc : JobCard) (pmt : Payment)
    (h : jc.job_number ≠ "") :
    (Payment.saveNew new_id jc pmt).parts_subtotal = jc.parts_subtotal ∧
    (Payment.saveNew new_id jc pmt).labor_subtotal = jc.labor_subtotal ∧
    (Payment.saveNew new_id jc pmt).tax_amount = jc.tax_amount ∧
    (Payment.saveNew new_id jc pmt).total_due = jc.total_due ∧
    (Payment.saveNew new_id jc pmt).status = jc.status ∧
    (Payment.saveNew new_id jc pmt).job_number = jc.job_number ∧
    (Payment.saveNew new_id jc pmt).line_items = jc.line_items ∧
    (Payment.saveNew new_id jc pmt).total_paid
      = paymentsTotal (jc.payments ++ [pmt]) := by
  have hb : (jc.job_number == "") = false := by
    simp only [beq_eq_false_iff_ne, ne_eq]
    exact h
  simp [Payment.saveNew, JobCard.save, hb]

/-- Claim C10, witness: recording the 100 cash payment on the persisted job
card J000002 leaves total_due and status unchanged. -/
theorem c10_payment_save_frame_witness :
    (Payment.saveNew 3 c10Jc c10Pmt).total_due = c10Jc.total_due ∧
    (Payment.saveNew 3 c10Jc c10Pmt).status = c10Jc.status :=
  ⟨(c10_payment_save_frame 3 c10Jc c10Pmt (by simp [c10Jc])).2.2.2.1,
    (c10_payment_save_frame 3 c10Jc c10Pmt (by simp [c10Jc])).2.2.2.2.1⟩
